import Mathlib

/-!
Verification of `lobot.py`, an interactive command-line tool that manages a
small fleet of AWS EC2 instances.  The Python source is shallowly embedded:
Python dictionaries become association lists over a `PyVal` value type, every
fallible operation returns `Except Err`, remote AWS calls are recorded in an
explicit call trace, and the interactive prompts and the AWS responses are
supplied as oracle parameters.  Line numbers in the comments refer to
`src/lobot.py`.
-/

/-- Python exceptions (and the error kinds the specification names for them)
raised by the embedded code. -/
inductive Err where
  | keyError (key : String)
  | typeError
  | valueError (msg : String)
  | assertionError
  /-- The `AssertionError` raised by `change_type` (line 346) when the state is
  not `stopped`; the specification names this failure `InvalidStateError`. -/
  | invalidStateError
  | indexError
  | nameError
  /-- The `KeyError` raised with an explanatory message when a region code has
  no entry in `REGION_TO_READABLE_NAME` (lines 93, 320, 339, 463); the
  specification names this failure `UnknownRegionError`. -/
  | unknownRegionError (region : String)
  /-- A re-raised botocore `ClientError`. -/
  | clientError (msg : String)
deriving DecidableEq, Repr

/-- An AWS tag, a `Key`/`Value` pair. -/
structure AwsTag where
  key : String
  value : String
deriving DecidableEq, Repr

/-- Python values stored in the instance dictionaries: `None`, strings, the
numbers appearing in price entries, the nested `State` object (of which only
the `Name` field is ever read), the `Tags` list, the `LaunchTime` timestamp
(modelled as whole seconds since the epoch), and nested string-valued
dictionaries such as `Placement`. -/
inductive PyVal where
  | none
  | str (s : String)
  | num (q : Rat)
  | stateObj (name : String)
  | tags (ts : List AwsTag)
  | time (t : Int)
  | strDict (d : List (String × String))
deriving DecidableEq, Repr

instance : BEq PyVal := ⟨fun a b => decide (a = b)⟩

theorem pyval_beq_def (a b : PyVal) : (a == b) = decide (a = b) := rfl

/-- Python `str()` of the values the code ever stringifies. -/
def pyStr : PyVal → String
  | .none => "None"
  | .str s => s
  | .num q => toString q
  | .stateObj n => "<state " ++ n ++ ">"
  | .tags _ => "<tags>"
  | .time t => toString t
  | .strDict _ => "<dict>"

/-- A Python dictionary with string keys, embedded as an association list in
insertion order (Python dictionaries preserve insertion order). -/
abbrev PyDict := List (String × PyVal)

/-- Dictionary lookup: the value at the first matching key. -/
def alookup {α : Type} : List (String × α) → String → Option α
  | [], _ => Option.none
  | (k', v) :: rest, k => if k' == k then some v else alookup rest k

/-- Dictionary assignment `d[k] = v`: replaces the value in place, or appends
a new entry at the end, as Python dictionaries do. -/
def ainsert {α : Type} : List (String × α) → String → α → List (String × α)
  | [], k, v => [(k, v)]
  | (k', v') :: rest, k, v =>
      if k' == k then (k, v) :: rest else (k', v') :: ainsert rest k v

/-- `d.pop(k, None)`: removes the key if present. -/
def apop {α : Type} (d : List (String × α)) (k : String) : List (String × α) :=
  d.filter (fun p => p.1 != k)

/-- Inserting a batch of key/value pairs one after the other (the tag and
placement flattening loops). -/
def insertAll {α : Type} (d : List (String × α)) (ps : List (String × α)) :
    List (String × α) :=
  ps.foldl (fun d p => ainsert d p.1 p.2) d

/-- Python `k in d`. -/
def dcontains (d : PyDict) (k : String) : Bool := (alookup d k).isSome

/-- Python `d[k]`, raising `KeyError` when the key is absent. -/
def dget (d : PyDict) (k : String) : Except Err PyVal :=
  match alookup d k with
  | some v => .ok v
  | Option.none => .error (.keyError k)

/-- `d[k]` where the value is then used as a string (concatenation, an API
string parameter); a non-string raises `TypeError`. -/
def dgetStr (d : PyDict) (k : String) : Except Err String :=
  match alookup d k with
  | some (.str s) => .ok s
  | some _ => .error .typeError
  | Option.none => .error (.keyError k)

/-- Whether `needle` is a prefix of `hay` (character lists). -/
def charsPrefixOf : List Char → List Char → Bool
  | [], _ => true
  | _ :: _, [] => false
  | a :: as, b :: bs => a == b && charsPrefixOf as bs

/-- Whether `needle` occurs inside `hay` (character lists). -/
def charsInfixOf (needle : List Char) : List Char → Bool
  | [] => needle.isEmpty
  | b :: bs => charsPrefixOf needle (b :: bs) || charsInfixOf needle bs

/-- Python `pat in hay` on strings. -/
def strContains (hay pat : String) : Bool := charsInfixOf pat.toList hay.toList

/-- The characters of the first segment of a split: everything before the
first occurrence of the separator. -/
def splitFirstChars (sep : List Char) : List Char → List Char
  | [] => []
  | c :: cs => if charsPrefixOf sep (c :: cs) then [] else c :: splitFirstChars sep cs

/-- Python `s.split(sep)[0]`, as used on the prompt answers. -/
def pySplitHead (s sep : String) : String :=
  String.mk (splitFirstChars sep.toList s.toList)

/-- Attributes lobot fetches from the AWS database (line 23). -/
def STANDARD_ATTRIBUTES : List String :=
  ["Name", "KeyName", "InstanceId", "InstanceType", "PublicIpAddress", "Uptime", "State"]

/-- AWS user names offered by `change_remote_username` (lines 17-20). -/
def USERNAME_TO_AMI : List (String × String) :=
  [("ec2-user", "For Amazon Linux AMI, Fedora AMI, Suse AMI"),
   ("ubuntu", "For Ubuntu AMI"),
   ("centos", "For Centos AMI"),
   ("admin", "For Debian AMI")]

/-- The region-code-to-readable-name table (lines 28-47). -/
def REGION_TO_READABLE_NAME : List (String × String) :=
  [("us-east-1", "US East (N. Virginia)"),
   ("us-east-2", "US East (Ohio)"),
   ("us-west-1", "US West (N. California)"),
   ("us-west-2", "US West (Oregon)"),
   ("ap-south-1", "Asia Pacific (Mumbai)"),
   ("ap-northeast-3", "Asia Pacific (Osaka Local)"),
   ("ap-northeast-2", "Asia Pacific (Seoul)"),
   ("ap-southeast-1", "Asia Pacific (Singapore)"),
   ("ap-southeast-2", "Asia Pacific (Sydney)"),
   ("ap-northeast-1", "Asia Pacific (Tokyo)"),
   ("ca-central-1", "Canada (Central)"),
   ("cn-north-1", "China (Beijing)"),
   ("cn-northwest-1", "China (Ningxia)"),
   ("eu-central-1", "EU (Frankfurt)"),
   ("eu-west-1", "EU (Ireland)"),
   ("eu-west-2", "EU (London)"),
   ("eu-west-3", "EU (Paris)"),
   ("eu-north-1", "EU (Stockholm)"),
   ("sa-east-1", "South America (Sao Paulo)")]

/-- `REGION_TO_READABLE_NAME[region]`, as an optional lookup. -/
def lookupRegion (region : String) : Option String :=
  alookup REGION_TO_READABLE_NAME region

/-- A Python `datetime.timedelta`: normalized to days, seconds in
`[0, 86400)` and microseconds in `[0, 1000000)`. -/
structure Timedelta where
  days : Int
  seconds : Nat
  microseconds : Nat
deriving DecidableEq, Repr

/-- `timedelta_hours_minutes` (lines 79-80): hours are
`days * 24 + seconds // 3600`, minutes are `(seconds // 60) % 60`. -/
def timedelta_hours_minutes (td : Timedelta) : Int × Nat :=
  (td.days * 24 + (td.seconds / 3600 : Nat), (td.seconds / 60) % 60)

/-- Subtraction of two datetimes (seconds since the epoch), normalized the way
Python builds a `timedelta`: floor division and remainder by 86400. -/
def datetime_sub (a b : Int) : Timedelta :=
  ⟨Int.ediv (a - b) 86400, (Int.emod (a - b) 86400).toNat, 0⟩

/-- `"{}h {}m".format(h, m)` as used for the `Uptime` field (line 166). -/
def fmt_uptime (p : Int × Nat) : String :=
  toString p.1 ++ "h " ++ toString p.2 ++ "m"

/-! ## Price catalog client (`load_prices`, lines 82-123) -/

/-- One price dimension of an on-demand term of a pricing product. -/
structure PriceDimension where
  description : String
  unit : String
  pricePerUnitUSD : Rat
deriving DecidableEq, Repr

/-- A product returned by `pricing.get_products`: the technical attributes the
code reads, plus the `terms.OnDemand` dictionary.  `Option.none` for
`onDemandTerms` models a product without an `OnDemand` key (the `KeyError`
that the code turns into `continue`); the two nested association lists are the
OnDemand dictionary and its `priceDimensions` dictionary, whose first entries
the code selects. -/
structure PriceProduct where
  instanceType : String
  instanceFamily : String
  onDemandTerms : Option (List (String × List (String × PriceDimension)))
deriving DecidableEq, Repr

/-- One entry of the price map (the `info_dict` of line 119). -/
structure PriceInfo where
  pricePerUnit : Rat
  unit : String
  instanceFamily : String
deriving DecidableEq, Repr

/-- The filter list built at lines 94-97. -/
def mk_filters (location_name used_type : String) : List (String × String) :=
  [("operatingSystem", "Linux"), ("location", location_name),
   ("instanceType", used_type), ("currentGeneration", "Yes")]

/-- The first loop of `load_prices` (lines 88-98): one `get_products` query per
requested type.  The arguments thread the `known_instance_types` list (which
stays empty throughout this loop, because it is only appended to in the second
loop), the last `filters` value (a `NameError` would occur if it were read
before being assigned), the list of queries issued so far, and the accumulated
product list.  On failure the queries issued before the failure are reported
alongside the error. -/
def load_prices_requests
    (gp : List (String × String) → List PriceProduct) (region_name : String) :
    List PyVal → List PyVal → Option (List (String × String)) →
    List (List (String × String)) → List PriceProduct →
    Except (Err × List (List (String × String)))
      (List PriceProduct × List (List (String × String)))
  | [], _known, _filters, queries, products => .ok (products, queries)
  | used_type :: rest, known, filtersPrev, queries, products =>
    if known.contains used_type then
      -- unreachable from `load_prices`: `known_instance_types` stays empty here
      match filtersPrev with
      | Option.none => .error (.nameError, queries)
      | some f =>
          load_prices_requests gp region_name rest known (some f)
            (queries ++ [f]) (products ++ gp f)
    else
      match lookupRegion region_name with
      | Option.none => .error (.unknownRegionError region_name, queries)
      | some loc =>
        match used_type with
        | .str t =>
            let f := mk_filters loc t
            load_prices_requests gp region_name rest known (some f)
              (queries ++ [f]) (products ++ gp f)
        | _ => .error (.typeError, queries)  -- boto rejects a non-string filter value

/-- The body of the second loop of `load_prices` (lines 100-121): pick the
first OnDemand term and its first price dimension (an empty dictionary would
make `list(keys)[0]` raise `IndexError`), discard zero prices, and record the
price entry under the product instance type. -/
def process_product (acc : List (String × PriceInfo) × List PyVal)
    (p : PriceProduct) : Except Err (List (String × PriceInfo) × List PyVal) :=
  match p.onDemandTerms with
  | Option.none => .ok acc
  | some [] => .error .indexError
  | some ((_funnyKey, dims) :: _) =>
    match dims with
    | [] => .error .indexError
    | (_fk2, dim) :: _ =>
      if dim.pricePerUnitUSD == 0 then .ok acc
      else
        .ok (ainsert acc.1 p.instanceType
               ⟨dim.pricePerUnitUSD, dim.unit, p.instanceFamily⟩,
             acc.2 ++ [.str p.instanceType])

/-- `load_prices` (lines 82-123).  `gp` is the pricing API
(`pricing.get_products`); the result (or the error) carries the list of
queries actually issued, so that the theorems can speak about which provider
calls were made. -/
def load_prices (gp : List (String × String) → List PriceProduct)
    (used_instance_types : List PyVal) (region_name : String) :
    Except (Err × List (List (String × String)))
      (List (String × PriceInfo) × List (List (String × String))) :=
  match load_prices_requests gp region_name used_instance_types [] Option.none [] [] with
  | .error ep => .error ep
  | .ok (products, queries) =>
    match products.foldlM process_product ([], []) with
    | .error e => .error (e, queries)
    | .ok (price_map, _known) => .ok (price_map, queries)

/-! ## Claims C9, C10, C6 -/

/-- **C9.** For every non-negative duration, `timedelta_hours_minutes` returns
a pair `(h, m)` with `0 ≤ m < 60` whose value `h * 60 + m` equals the total
length of the duration (days, seconds and microseconds together) truncated to
whole minutes. -/
theorem timedelta_hours_minutes_exact (d s mu : Nat) (hmu : mu < 1000000) :
    (timedelta_hours_minutes ⟨(d : Int), s, mu⟩).2 < 60 ∧
    ((timedelta_hours_minutes ⟨(d : Int), s, mu⟩).1 * 60 +
        (timedelta_hours_minutes ⟨(d : Int), s, mu⟩).2 : Int) =
      (((d * 86400 + s) * 1000000 + mu) / 60000000 : Nat) := by
  constructor
  · simp only [timedelta_hours_minutes]
    omega
  · simp only [timedelta_hours_minutes]
    push_cast
    omega

/-- Witness for C9 at the concrete duration of 2 days, 7380 seconds and
500 microseconds. -/
theorem timedelta_hours_minutes_exact_witness :
    (timedelta_hours_minutes ⟨(2 : Int), 7380, 500⟩).2 < 60 ∧
    ((timedelta_hours_minutes ⟨(2 : Int), 7380, 500⟩).1 * 60 +
        (timedelta_hours_minutes ⟨(2 : Int), 7380, 500⟩).2 : Int) =
      (((2 * 86400 + 7380) * 1000000 + 500) / 60000000 : Nat) :=
  timedelta_hours_minutes_exact 2 7380 500 (by decide)

/-- **C10.** Called with an empty collection of instance types, `load_prices`
returns an empty mapping having issued no pricing query; in particular it
succeeds even for a region code that has no entry in
`REGION_TO_READABLE_NAME`, because the per-type loop (which contains the
region-name lookup) never runs. -/
theorem load_prices_empty_types
    (gp : List (String × String) → List PriceProduct) (region : String) :
    load_prices gp [] region = .ok ([], []) := rfl

/-- **C6.** For a region code with no entry in `REGION_TO_READABLE_NAME`, a
price lookup for a non-empty collection of instance types fails with the
unknown-region error before any pricing query has been issued (the reported
query list is empty). -/
theorem load_prices_unknown_region
    (gp : List (String × String) → List PriceProduct) (region : String)
    (v : PyVal) (rest : List PyVal) (h : lookupRegion region = Option.none) :
    load_prices gp (v :: rest) region =
      .error (.unknownRegionError region, []) := by
  simp [load_prices, load_prices_requests, h, List.contains]

/-- Witness for C6: the unmapped region code `mars-central-1` with one
requested type. -/
theorem load_prices_unknown_region_witness :
    load_prices (fun _ => []) [PyVal.str "t2.micro"] "mars-central-1" =
      .error (.unknownRegionError "mars-central-1", []) :=
  load_prices_unknown_region (fun _ => []) "mars-central-1"
    (PyVal.str "t2.micro") [] rfl

/-! ## Instance directory (`get_current_instances`, lines 140-190) -/

/-- Lines 154-156: every requested attribute that is absent from the raw
instance is filled in with `None`. -/
def fill_missing (interesting : List String) (d : PyDict) : PyDict :=
  interesting.foldl (fun d a => if dcontains d a then d else ainsert d a PyVal.none) d

/-- Lines 157-158: `inst["State"] = inst["State"]["Name"]`.  Subscripting a
value that is not the nested state object raises `TypeError` (in particular
the `None` filler, when the raw instance had no `State` field). -/
def flatten_state (d : PyDict) : Except Err PyDict :=
  match alookup d "State" with
  | Option.none => .ok d
  | some (.stateObj n) => .ok (ainsert d "State" (.str n))
  | some _ => .error .typeError

/-- Lines 159-160: collect the distinct `InstanceType` values. -/
def track_used (used : List PyVal) (d : PyDict) : Except Err (List PyVal) :=
  match alookup d "InstanceType" with
  | Option.none => .error (.keyError "InstanceType")
  | some v => .ok (if used.contains v then used else used ++ [v])

/-- Lines 161-166: derive the `Uptime` field.  Zero when the state is not
`running`, otherwise now minus `LaunchTime`. -/
def compute_uptime (interesting : List String) (now : Int) (d : PyDict) :
    Except Err PyDict :=
  if interesting.contains "Uptime" then
    match alookup d "State" with
    | Option.none => .error (.keyError "State")
    | some st =>
      if st != PyVal.str "running" then
        .ok (ainsert d "Uptime" (.str (fmt_uptime (timedelta_hours_minutes ⟨0, 0, 0⟩))))
      else
        match alookup d "LaunchTime" with
        | Option.none => .error (.keyError "LaunchTime")
        | some (.time t) =>
            .ok (ainsert d "Uptime"
                  (.str (fmt_uptime (timedelta_hours_minutes (datetime_sub now t)))))
        | some _ => .error .typeError
  else .ok d

/-- Lines 167-173: flatten the tag key/value pairs into top-level fields.  A
missing `Tags` key raises `KeyError`, which the code catches by setting
`inst["Name"] = ""`; iterating a non-list raises `TypeError` (uncaught). -/
def flatten_tags (d : PyDict) : Except Err PyDict :=
  match alookup d "Tags" with
  | Option.none => .ok (ainsert d "Name" (.str ""))
  | some (.tags ts) =>
      .ok (apop (insertAll d (ts.map fun tg => (tg.key, PyVal.str tg.value))) "Tags")
  | some _ => .error .typeError

/-- Lines 174-181: when `ImageName` is requested, replace `ImageId` with the
image name looked up through the EC2 API (`img`); a missing `ImageId` raises
`KeyError`, caught by setting `ImageName` to the empty string. -/
def resolve_image_name (interesting : List String) (img : String → String)
    (d : PyDict) : Except Err PyDict :=
  if interesting.contains "ImageName" then
    match alookup d "ImageId" with
    | Option.none => .ok (ainsert d "ImageName" (.str ""))
    | some (.str iid) => .ok (ainsert (apop d "ImageId") "ImageName" (.str (img iid)))
    | some _ => .error .typeError
  else .ok d

/-- Lines 182-184: flatten the `Placement` dictionary into top-level fields.
A missing `Placement` key raises `KeyError` (uncaught). -/
def flatten_placement (d : PyDict) : Except Err PyDict :=
  match alookup d "Placement" with
  | Option.none => .error (.keyError "Placement")
  | some (.strDict pd) =>
      .ok (insertAll d (pd.map fun kv => (kv.1, PyVal.str kv.2)))
  | some _ => .error .typeError

/-- Line 185: keep only the requested attributes. -/
def keep_interesting (interesting : List String) (d : PyDict) : PyDict :=
  d.filter (fun p => interesting.contains p.1)

/-- The body of the normalization loop (lines 153-185) for one raw instance,
threading the `used_types` accumulator. -/
def normalize_instance (interesting : List String) (now : Int)
    (img : String → String) (used : List PyVal) (inst0 : PyDict) :
    Except Err (PyDict × List PyVal) :=
  let inst := fill_missing interesting inst0
  match flatten_state inst with
  | .error e => .error e
  | .ok inst =>
    match track_used used inst with
    | .error e => .error e
    | .ok used =>
      match compute_uptime interesting now inst with
      | .error e => .error e
      | .ok inst =>
        match flatten_tags inst with
        | .error e => .error e
        | .ok inst =>
          match resolve_image_name interesting img inst with
          | .error e => .error e
          | .ok inst =>
            match flatten_placement inst with
            | .error e => .error e
            | .ok inst => .ok (keep_interesting interesting inst, used)

/-- The normalization loop over all raw instances, in order. -/
def normalize_all (interesting : List String) (now : Int) (img : String → String) :
    List PyDict → List PyDict → List PyVal → Except Err (List PyDict × List PyVal)
  | [], recs, used => .ok (recs, used)
  | raw :: rest, recs, used =>
    match normalize_instance interesting now img used raw with
    | .error e => .error e
    | .ok (rec, used') => normalize_all interesting now img rest (recs ++ [rec]) used'

/-- `merge_price_map` (lines 125-132): merge each price entry into the record
of the matching instance type; a type absent from the price map only produces
a printed warning. -/
def merge_price_map : List PyDict → List (String × PriceInfo) → Except Err (List PyDict)
  | [], _pm => .ok []
  | inst :: rest, pm =>
    match alookup inst "InstanceType" with
    | Option.none => .error (.keyError "InstanceType")
    | some tv =>
      let info := match tv with
        | .str t => alookup pm t
        | _ => Option.none
      let inst2 := match info with
        | some i =>
            ainsert (ainsert (ainsert inst "pricePerUnit (*)" (.num i.pricePerUnit))
              "unit" (.str i.unit)) "instanceFamily" (.str i.instanceFamily)
        | Option.none => inst
      match merge_price_map rest pm with
      | .error e => .error e
      | .ok rest2 => .ok (inst2 :: rest2)

/-- The external data a directory fetch consumes: the reservations returned by
`describe_instances`, the pricing API, the current wall-clock time (seconds
since the epoch) and the image-name lookup. -/
structure FetchEnv where
  reservations : List (List PyDict)
  getProducts : List (String × String) → List PriceProduct
  now : Int
  imageName : String → String

/-- `get_current_instances` (lines 140-190).  The region is taken as given
(the `None` default resolved through the client metadata is elided); the
result is the instance records, the distinct types used, and the region. -/
def get_current_instances (env : FetchEnv) (interesting : List String)
    (include_prices : Bool) (region_name : String) :
    Except Err (List PyDict × List PyVal × String) :=
  if !(interesting.contains "InstanceType") then .error .assertionError
  else
    let instances := env.reservations.foldl (fun acc res => acc ++ res) []
    match normalize_all interesting env.now env.imageName instances [] [] with
    | .error e => .error e
    | .ok (insts, used) =>
      if include_prices then
        match load_prices env.getProducts used region_name with
        | .error (e, _) => .error e
        | .ok (pm, _) =>
          match merge_price_map insts pm with
          | .error e => .error e
          | .ok insts2 => .ok (insts2, used, region_name)
      else .ok (insts, used, region_name)

/-! ## Dictionary lemmas -/

theorem alookup_ainsert_self {α : Type} (d : List (String × α)) (k : String) (v : α) :
    alookup (ainsert d k v) k = some v := by
  induction d with
  | nil => simp [ainsert, alookup]
  | cons p rest ih =>
    obtain ⟨k'', v''⟩ := p
    by_cases hk : k'' = k
    · simp [ainsert, hk, alookup]
    · simp [ainsert, hk, alookup, ih]

theorem alookup_ainsert_ne {α : Type} (d : List (String × α)) (k k' : String)
    (v : α) (h : k' ≠ k) : alookup (ainsert d k v) k' = alookup d k' := by
  induction d with
  | nil => simp [ainsert, alookup, Ne.symm h]
  | cons p rest ih =>
    obtain ⟨k'', v''⟩ := p
    by_cases hk : k'' = k
    · subst hk
      simp [ainsert, alookup, Ne.symm h]
    · simp [ainsert, hk, alookup, ih]

theorem alookup_filter_keys {α : Type} (d : List (String × α)) (q : String → Bool)
    (k : String) :
    alookup (d.filter (fun p => q p.1)) k = if q k then alookup d k else Option.none := by
  induction d with
  | nil => simp [alookup]
  | cons p rest ih =>
    obtain ⟨k'', v''⟩ := p
    by_cases hq : q k'' = true
    · by_cases hk : k'' = k
      · subst hk
        simp [List.filter, hq, alookup, ih]
      · simp [List.filter, hq, alookup, hk, ih]
    · by_cases hk : k'' = k
      · subst hk
        simp only [Bool.not_eq_true] at hq
        simp [List.filter, hq, alookup, ih]
      · simp only [Bool.not_eq_true] at hq
        simp [List.filter, hq, alookup, hk, ih]

theorem alookup_apop_ne {α : Type} (d : List (String × α)) (k k' : String)
    (h : k' ≠ k) : alookup (apop d k) k' = alookup d k' := by
  have := alookup_filter_keys d (fun s => s != k) k'
  simp only [apop, this, bne_iff_ne, ne_eq, h, not_false_eq_true, if_true]

theorem alookup_insertAll_not_mem {α : Type} (ps : List (String × α))
    (d : List (String × α)) (k : String) (h : ∀ p ∈ ps, p.1 ≠ k) :
    alookup (insertAll d ps) k = alookup d k := by
  induction ps generalizing d with
  | nil => simp [insertAll]
  | cons p rest ih =>
    obtain ⟨kp, vp⟩ := p
    have h1 : kp ≠ k := h (kp, vp) (List.mem_cons_self _ _)
    have h2 : ∀ p ∈ rest, p.1 ≠ k := fun p hp => h p (List.mem_cons_of_mem _ hp)
    calc alookup (insertAll d ((kp, vp) :: rest)) k
        = alookup (insertAll (ainsert d kp vp) rest) k := rfl
      _ = alookup (ainsert d kp vp) k := ih (ainsert d kp vp) h2
      _ = alookup d k := alookup_ainsert_ne d kp k vp (Ne.symm h1)

theorem alookup_insertAll_cases {α : Type} (ps : List (String × α))
    (d : List (String × α)) (k : String) :
    alookup (insertAll d ps) k = alookup d k ∨
      ∃ v, (k, v) ∈ ps ∧ alookup (insertAll d ps) k = some v := by
  induction ps generalizing d with
  | nil => left; rfl
  | cons p rest ih =>
    obtain ⟨kp, vp⟩ := p
    have hstep : insertAll d ((kp, vp) :: rest) = insertAll (ainsert d kp vp) rest := rfl
    rcases ih (ainsert d kp vp) with h | ⟨v, hv, hl⟩
    · by_cases hk : k = kp
      · subst hk
        right
        exact ⟨vp, List.mem_cons_self _ _, by
          rw [hstep, h, alookup_ainsert_self]⟩
      · left
        rw [hstep, h, alookup_ainsert_ne d kp k vp hk]
    · right
      exact ⟨v, List.mem_cons_of_mem _ hv, by rw [hstep]; exact hl⟩

theorem alookup_fill_missing (attrs : List String) (d : PyDict) (k : String) :
    alookup (fill_missing attrs d) k =
      match alookup d k with
      | some v => some v
      | Option.none => if k ∈ attrs then some PyVal.none else Option.none := by
  induction attrs generalizing d with
  | nil => cases h : alookup d k <;> simp [fill_missing, h]
  | cons a rest ih =>
    have hstep : fill_missing (a :: rest) d =
        fill_missing rest (if dcontains d a then d else ainsert d a PyVal.none) := rfl
    by_cases hc : dcontains d a = true
    · rw [hstep, if_pos hc, ih]
      cases h : alookup d k with
      | some v => rfl
      | none =>
        by_cases hk : k = a
        · subst hk
          simp [dcontains, h] at hc
        · simp [List.mem_cons, hk]
    · rw [hstep, if_neg hc, ih]
      simp only [Bool.not_eq_true] at hc
      by_cases hk : k = a
      · subst hk
        have hda : alookup d k = Option.none := by
          simp only [dcontains, Option.isSome] at hc
          cases h : alookup d k with
          | some v => rw [h] at hc; simp at hc
          | none => rfl
        rw [alookup_ainsert_self, hda]
        simp [List.mem_cons]
      · rw [alookup_ainsert_ne d a k PyVal.none hk]
        cases h : alookup d k with
        | some v => rfl
        | none => simp [List.mem_cons, hk]

/-! ## Raw-instance predicates used by the uptime theorem -/

/-- The raw instance carries a provider state object whose name is not
`running`. -/
def stateNotRunning (raw : PyDict) : Bool :=
  match alookup raw "State" with
  | some (.stateObj s) => s != "running"
  | _ => false

/-- If the raw instance has a tag list, none of its tag keys equals `k`
(tag flattening overwrites same-named record fields). -/
def tagsAvoid (raw : PyDict) (k : String) : Bool :=
  match alookup raw "Tags" with
  | some (.tags ts) => ts.all (fun tg => tg.key != k)
  | _ => true

/-- If the raw instance has a placement dictionary, none of its keys equals
`k` (placement flattening overwrites same-named record fields). -/
def placementAvoid (raw : PyDict) (k : String) : Bool :=
  match alookup raw "Placement" with
  | some (.strDict pd) => pd.all (fun kv => kv.1 != k)
  | _ => true

theorem stateNotRunning_spec (raw : PyDict) (h : stateNotRunning raw = true) :
    ∃ s, alookup raw "State" = some (.stateObj s) ∧ s ≠ "running" := by
  unfold stateNotRunning at h
  cases hst : alookup raw "State" with
  | none => rw [hst] at h; simp at h
  | some v =>
    rw [hst] at h
    cases v <;> simp at h
    case stateObj n => exact ⟨n, rfl, h⟩

theorem fmt_uptime_zero : fmt_uptime (timedelta_hours_minutes ⟨0, 0, 0⟩) = "0h 0m" := rfl

theorem alookup_keep_standard (d : PyDict) (k : String)
    (hk : (STANDARD_ATTRIBUTES.contains k) = true) :
    alookup (keep_interesting STANDARD_ATTRIBUTES d) k = alookup d k := by
  unfold keep_interesting
  rw [alookup_filter_keys]
  exact if_pos hk

/-- Tracing the `Uptime` field through one run of the normalization loop body:
when the raw instance is not running and neither its tags nor its placement
carry an `Uptime` key, a successful normalization yields the zero uptime. -/
theorem uptime_of_normalize (now : Int) (img : String → String) (u : List PyVal)
    (raw rec : PyDict) (u2 : List PyVal)
    (h1 : stateNotRunning raw = true)
    (h2 : tagsAvoid raw "Uptime" = true)
    (h3 : placementAvoid raw "Uptime" = true)
    (hok : normalize_instance STANDARD_ATTRIBUTES now img u raw = .ok (rec, u2)) :
    alookup rec "Uptime" = some (PyVal.str "0h 0m") := by
  obtain ⟨s, hs, hsne⟩ := stateNotRunning_spec raw h1
  have hd0State : alookup (fill_missing STANDARD_ATTRIBUTES raw) "State"
      = some (.stateObj s) := by
    rw [alookup_fill_missing, hs]
  have hflat : flatten_state (fill_missing STANDARD_ATTRIBUTES raw)
      = .ok (ainsert (fill_missing STANDARD_ATTRIBUTES raw) "State" (.str s)) := by
    unfold flatten_state; rw [hd0State]
  set d0 := fill_missing STANDARD_ATTRIBUTES raw with hd0
  set d1 := ainsert d0 "State" (.str s) with hd1
  have hd1State : alookup d1 "State" = some (.str s) := alookup_ainsert_self d0 "State" _
  have hd0IT : ∃ w, alookup d0 "InstanceType" = some w := by
    rw [hd0, alookup_fill_missing]
    cases h : alookup raw "InstanceType" with
    | some v => exact ⟨v, rfl⟩
    | none =>
      refine ⟨PyVal.none, ?_⟩
      rw [if_pos (by decide : "InstanceType" ∈ STANDARD_ATTRIBUTES)]
  obtain ⟨w, hw0⟩ := hd0IT
  have hw1 : alookup d1 "InstanceType" = some w := by
    rw [hd1, alookup_ainsert_ne d0 "State" "InstanceType" _ (by decide)]
    exact hw0
  set usedX := (if u.contains w then u else u ++ [w]) with hUX
  have htrack : track_used u d1 = .ok usedX := by
    unfold track_used; rw [hw1]
  have hbne : (PyVal.str s != PyVal.str "running") = true := by
    simp [bne, pyval_beq_def, hsne]
  have hupt : compute_uptime STANDARD_ATTRIBUTES now d1
      = .ok (ainsert d1 "Uptime" (.str "0h 0m")) := by
    unfold compute_uptime
    rw [if_pos (by decide : (STANDARD_ATTRIBUTES.contains "Uptime") = true), hd1State]
    simp only [hbne, if_true, fmt_uptime_zero]
  set d2 := ainsert d1 "Uptime" (.str "0h 0m") with hd2
  have hd2Upt : alookup d2 "Uptime" = some (.str "0h 0m") :=
    alookup_ainsert_self d1 "Uptime" _
  have hd2Tags : alookup d2 "Tags" = alookup raw "Tags" := by
    rw [hd2, alookup_ainsert_ne d1 "Uptime" "Tags" _ (by decide),
      hd1, alookup_ainsert_ne d0 "State" "Tags" _ (by decide),
      hd0, alookup_fill_missing]
    cases h : alookup raw "Tags" with
    | some v => rfl
    | none => rw [if_neg (by decide : ¬ "Tags" ∈ STANDARD_ATTRIBUTES)]
  have hd2Pl : alookup d2 "Placement" = alookup raw "Placement" := by
    rw [hd2, alookup_ainsert_ne d1 "Uptime" "Placement" _ (by decide),
      hd1, alookup_ainsert_ne d0 "State" "Placement" _ (by decide),
      hd0, alookup_fill_missing]
    cases h : alookup raw "Placement" with
    | some v => rfl
    | none => rw [if_neg (by decide : ¬ "Placement" ∈ STANDARD_ATTRIBUTES)]
  cases htags : alookup raw "Tags" with
  | none =>
    have htagsStep : flatten_tags d2 = .ok (ainsert d2 "Name" (.str "")) := by
      unfold flatten_tags; rw [hd2Tags, htags]
    set d3 := ainsert d2 "Name" (.str "") with hd3
    have hd3Upt : alookup d3 "Uptime" = some (.str "0h 0m") := by
      rw [hd3, alookup_ainsert_ne d2 "Name" "Uptime" _ (by decide)]; exact hd2Upt
    have hd3Pl : alookup d3 "Placement" = alookup raw "Placement" := by
      rw [hd3, alookup_ainsert_ne d2 "Name" "Placement" _ (by decide)]; exact hd2Pl
    have himg : resolve_image_name STANDARD_ATTRIBUTES img d3 = .ok d3 := by
      unfold resolve_image_name
      rw [if_neg (by decide : ¬ (STANDARD_ATTRIBUTES.contains "ImageName") = true)]
    cases hpl : alookup d3 "Placement" with
    | none =>
      have herr : flatten_placement d3 = .error (.keyError "Placement") := by
        unfold flatten_placement; rw [hpl]
      have hnorm : normalize_instance STANDARD_ATTRIBUTES now img u raw
          = .error (.keyError "Placement") := by
        unfold normalize_instance
        simp only [← hd0, hflat, htrack, hupt, htagsStep, himg, herr]
      rw [hnorm] at hok
      exact Except.noConfusion hok
    | some v =>
      cases v with
      | strDict pd =>
        have hpdraw : alookup raw "Placement" = some (.strDict pd) := by
          rw [← hd3Pl]; exact hpl
        have hpdkeys : ∀ kv ∈ pd, kv.1 ≠ "Uptime" := by
          unfold placementAvoid at h3
          rw [hpdraw] at h3
          simpa only [List.all_eq_true, bne_iff_ne, ne_eq] using h3
        have hplStep : flatten_placement d3
            = .ok (insertAll d3 (pd.map fun kv => (kv.1, PyVal.str kv.2))) := by
          unfold flatten_placement; rw [hpl]
        have hd4Upt : alookup (insertAll d3 (pd.map fun kv => (kv.1, PyVal.str kv.2)))
            "Uptime" = some (.str "0h 0m") := by
          rw [alookup_insertAll_not_mem _ _ _ (by
            intro p hp
            obtain ⟨kv, hkv, hpeq⟩ := List.mem_map.mp hp
            rw [← hpeq]
            exact hpdkeys kv hkv)]
          exact hd3Upt
        have hnorm : normalize_instance STANDARD_ATTRIBUTES now img u raw
            = .ok (keep_interesting STANDARD_ATTRIBUTES
                (insertAll d3 (pd.map fun kv => (kv.1, PyVal.str kv.2))), usedX) := by
          unfold normalize_instance
          simp only [← hd0, hflat, htrack, hupt, htagsStep, himg, hplStep]
        rw [hnorm] at hok
        simp only [Except.ok.injEq, Prod.mk.injEq] at hok
        obtain ⟨hrec, -⟩ := hok
        rw [← hrec, alookup_keep_standard _ _ (by decide)]
        exact hd4Upt
      | none =>
        have herr : flatten_placement d3 = .error .typeError := by
          unfold flatten_placement; rw [hpl]
        have hnorm : normalize_instance STANDARD_ATTRIBUTES now img u raw
            = .error .typeError := by
          unfold normalize_instance
          simp only [← hd0, hflat, htrack, hupt, htagsStep, himg, herr]
        rw [hnorm] at hok
        exact Except.noConfusion hok
      | str a =>
        have herr : flatten_placement d3 = .error .typeError := by
          unfold flatten_placement; rw [hpl]
        have hnorm : normalize_instance STANDARD_ATTRIBUTES now img u raw
            = .error .typeError := by
          unfold normalize_instance
          simp only [← hd0, hflat, htrack, hupt, htagsStep, himg, herr]
        rw [hnorm] at hok
        exact Except.noConfusion hok
      | num a =>
        have herr : flatten_placement d3 = .error .typeError := by
          unfold flatten_placement; rw [hpl]
        have hnorm : normalize_instance STANDARD_ATTRIBUTES now img u raw
            = .error .typeError := by
          unfold normalize_instance
          simp only [← hd0, hflat, htrack, hupt, htagsStep, himg, herr]
        rw [hnorm] at hok
        exact Except.noConfusion hok
      | stateObj a =>
        have herr : flatten_placement d3 = .error .typeError := by
          unfold flatten_placement; rw [hpl]
        have hnorm : normalize_instance STANDARD_ATTRIBUTES now img u raw
            = .error .typeError := by
          unfold normalize_instance
          simp only [← hd0, hflat, htrack, hupt, htagsStep, himg, herr]
        rw [hnorm] at hok
        exact Except.noConfusion hok
      | tags a =>
        have herr : flatten_placement d3 = .error .typeError := by
          unfold flatten_placement; rw [hpl]
        have hnorm : normalize_instance STANDARD_ATTRIBUTES now img u raw
            = .error .typeError := by
          unfold normalize_instance
          simp only [← hd0, hflat, htrack, hupt, htagsStep, himg, herr]
        rw [hnorm] at hok
        exact Except.noConfusion hok
      | time a =>
        have herr : flatten_placement d3 = .error .typeError := by
          unfold flatten_placement; rw [hpl]
        have hnorm : normalize_instance STANDARD_ATTRIBUTES now img u raw
            = .error .typeError := by
          unfold normalize_instance
          simp only [← hd0, hflat, htrack, hupt, htagsStep, himg, herr]
        rw [hnorm] at hok
        exact Except.noConfusion hok
  | some tv =>
    cases tv with
    | tags ts =>
      have hkeys : ∀ tg ∈ ts, tg.key ≠ "Uptime" := by
        unfold tagsAvoid at h2
        rw [htags] at h2
        simpa only [List.all_eq_true, bne_iff_ne, ne_eq] using h2
      have htagsStep : flatten_tags d2
          = .ok (apop (insertAll d2 (ts.map fun tg => (tg.key, PyVal.str tg.value)))
              "Tags") := by
        unfold flatten_tags; rw [hd2Tags, htags]
      set tagPairs := ts.map fun tg => (tg.key, PyVal.str tg.value) with htp
      set d3 := apop (insertAll d2 tagPairs) "Tags" with hd3
      have htpKeysNe : ∀ p ∈ tagPairs, p.1 ≠ "Uptime" := by
        intro p hp
        obtain ⟨tg, htg, hpeq⟩ := List.mem_map.mp hp
        rw [← hpeq]
        exact hkeys tg htg
      have hd3Upt : alookup d3 "Uptime" = some (.str "0h 0m") := by
        rw [hd3, alookup_apop_ne _ _ _ (by decide),
          alookup_insertAll_not_mem _ _ _ htpKeysNe]
        exact hd2Upt
      have himg : resolve_image_name STANDARD_ATTRIBUTES img d3 = .ok d3 := by
        unfold resolve_image_name
        rw [if_neg (by decide : ¬ (STANDARD_ATTRIBUTES.contains "ImageName") = true)]
      have hd3PlCases : alookup d3 "Placement" = alookup raw "Placement" ∨
          ∃ a, alookup d3 "Placement" = some (PyVal.str a) := by
        rw [hd3, alookup_apop_ne _ _ _ (by decide : ("Placement" : String) ≠ "Tags")]
        rcases alookup_insertAll_cases tagPairs d2 "Placement" with h | ⟨v, hv, hl⟩
        · left; rw [h]; exact hd2Pl
        · right
          obtain ⟨tg, htg, hpeq⟩ := List.mem_map.mp hv
          have hv2 : v = PyVal.str tg.value := by
            have := (Prod.mk.injEq _ _ _ _).mp hpeq
            exact this.2.symm
          exact ⟨tg.value, by rw [hl, hv2]⟩
      cases hpl : alookup d3 "Placement" with
      | none =>
        have herr : flatten_placement d3 = .error (.keyError "Placement") := by
          unfold flatten_placement; rw [hpl]
        have hnorm : normalize_instance STANDARD_ATTRIBUTES now img u raw
            = .error (.keyError "Placement") := by
          unfold normalize_instance
          simp only [← hd0, hflat, htrack, hupt, htagsStep, himg, herr]
        rw [hnorm] at hok
        exact Except.noConfusion hok
      | some v =>
        cases v with
        | strDict pd =>
          have hpdraw : alookup raw "Placement" = some (.strDict pd) := by
            rcases hd3PlCases with h | ⟨a, ha⟩
            · rw [← h]; exact hpl
            · rw [hpl] at ha
              exact absurd (Option.some.inj ha) (by simp)
          have hpdkeys : ∀ kv ∈ pd, kv.1 ≠ "Uptime" := by
            unfold placementAvoid at h3
            rw [hpdraw] at h3
            simpa only [List.all_eq_true, bne_iff_ne, ne_eq] using h3
          have hplStep : flatten_placement d3
              = .ok (insertAll d3 (pd.map fun kv => (kv.1, PyVal.str kv.2))) := by
            unfold flatten_placement; rw [hpl]
          have hd4Upt : alookup (insertAll d3 (pd.map fun kv => (kv.1, PyVal.str kv.2)))
              "Uptime" = some (.str "0h 0m") := by
            rw [alookup_insertAll_not_mem _ _ _ (by
              intro p hp
              obtain ⟨kv, hkv, hpeq⟩ := List.mem_map.mp hp
              rw [← hpeq]
              exact hpdkeys kv hkv)]
            exact hd3Upt
          have hnorm : normalize_instance STANDARD_ATTRIBUTES now img u raw
              = .ok (keep_interesting STANDARD_ATTRIBUTES
                  (insertAll d3 (pd.map fun kv => (kv.1, PyVal.str kv.2))), usedX) := by
            unfold normalize_instance
            simp only [← hd0, hflat, htrack, hupt, htagsStep, himg, hplStep]
          rw [hnorm] at hok
          simp only [Except.ok.injEq, Prod.mk.injEq] at hok
          obtain ⟨hrec, -⟩ := hok
          rw [← hrec, alookup_keep_standard _ _ (by decide)]
          exact hd4Upt
        | none =>
          have herr : flatten_placement d3 = .error .typeError := by
            unfold flatten_placement; rw [hpl]
          have hnorm : normalize_instance STANDARD_ATTRIBUTES now img u raw
              = .error .typeError := by
            unfold normalize_instance
            simp only [← hd0, hflat, htrack, hupt, htagsStep, himg, herr]
          rw [hnorm] at hok
          exact Except.noConfusion hok
        | str a =>
          have herr : flatten_placement d3 = .error .typeError := by
            unfold flatten_placement; rw [hpl]
          have hnorm : normalize_instance STANDARD_ATTRIBUTES now img u raw
              = .error .typeError := by
            unfold normalize_instance
            simp only [← hd0, hflat, htrack, hupt, htagsStep, himg, herr]
          rw [hnorm] at hok
          exact Except.noConfusion hok
        | num a =>
          have herr : flatten_placement d3 = .error .typeError := by
            unfold flatten_placement; rw [hpl]
          have hnorm : normalize_instance STANDARD_ATTRIBUTES now img u raw
              = .error .typeError := by
            unfold normalize_instance
            simp only [← hd0, hflat, htrack, hupt, htagsStep, himg, herr]
          rw [hnorm] at hok
          exact Except.noConfusion hok
        | stateObj a =>
          have herr : flatten_placement d3 = .error .typeError := by
            unfold flatten_placement; rw [hpl]
          have hnorm : normalize_instance STANDARD_ATTRIBUTES now img u raw
              = .error .typeError := by
            unfold normalize_instance
            simp only [← hd0, hflat, htrack, hupt, htagsStep, himg, herr]
          rw [hnorm] at hok
          exact Except.noConfusion hok
        | tags a =>
          have herr : flatten_placement d3 = .error .typeError := by
            unfold flatten_placement; rw [hpl]
          have hnorm : normalize_instance STANDARD_ATTRIBUTES now img u raw
              = .error .typeError := by
            unfold normalize_instance
            simp only [← hd0, hflat, htrack, hupt, htagsStep, himg, herr]
          rw [hnorm] at hok
          exact Except.noConfusion hok
        | time a =>
          have herr : flatten_placement d3 = .error .typeError := by
            unfold flatten_placement; rw [hpl]
          have hnorm : normalize_instance STANDARD_ATTRIBUTES now img u raw
              = .error .typeError := by
            unfold normalize_instance
            simp only [← hd0, hflat, htrack, hupt, htagsStep, himg, herr]
          rw [hnorm] at hok
          exact Except.noConfusion hok
    | none =>
      have herr : flatten_tags d2 = .error .typeError := by
        unfold flatten_tags; rw [hd2Tags, htags]
      have hnorm : normalize_instance STANDARD_ATTRIBUTES now img u raw
          = .error .typeError := by
        unfold normalize_instance
        simp only [← hd0, hflat, htrack, hupt, herr]
      rw [hnorm] at hok
      exact Except.noConfusion hok
    | str a =>
      have herr : flatten_tags d2 = .error .typeError := by
        unfold flatten_tags; rw [hd2Tags, htags]
      have hnorm : normalize_instance STANDARD_ATTRIBUTES now img u raw
          = .error .typeError := by
        unfold normalize_instance
        simp only [← hd0, hflat, htrack, hupt, herr]
      rw [hnorm] at hok
      exact Except.noConfusion hok
    | num a =>
      have herr : flatten_tags d2 = .error .typeError := by
        unfold flatten_tags; rw [hd2Tags, htags]
      have hnorm : normalize_instance STANDARD_ATTRIBUTES now img u raw
          = .error .typeError := by
        unfold normalize_instance
        simp only [← hd0, hflat, htrack, hupt, herr]
      rw [hnorm] at hok
      exact Except.noConfusion hok
    | stateObj a =>
      have herr : flatten_tags d2 = .error .typeError := by
        unfold flatten_tags; rw [hd2Tags, htags]
      have hnorm : normalize_instance STANDARD_ATTRIBUTES now img u raw
          = .error .typeError := by
        unfold normalize_instance
        simp only [← hd0, hflat, htrack, hupt, herr]
      rw [hnorm] at hok
      exact Except.noConfusion hok
    | time a =>
      have herr : flatten_tags d2 = .error .typeError := by
        unfold flatten_tags; rw [hd2Tags, htags]
      have hnorm : normalize_instance STANDARD_ATTRIBUTES now img u raw
          = .error .typeError := by
        unfold normalize_instance
        simp only [← hd0, hflat, htrack, hupt, herr]
      rw [hnorm] at hok
      exact Except.noConfusion hok
    | strDict a =>
      have herr : flatten_tags d2 = .error .typeError := by
        unfold flatten_tags; rw [hd2Tags, htags]
      have hnorm : normalize_instance STANDARD_ATTRIBUTES now img u raw
          = .error .typeError := by
        unfold normalize_instance
        simp only [← hd0, hflat, htrack, hupt, herr]
      rw [hnorm] at hok
      exact Except.noConfusion hok

/-- Every record produced by the normalization loop comes from one raw
instance of the input list (or was already in the accumulator). -/
theorem normalize_all_mem (interesting : List String) (now : Int)
    (img : String → String) (raws : List PyDict) (recs0 : List PyDict)
    (used0 : List PyVal) (recs : List PyDict) (used : List PyVal)
    (hok : normalize_all interesting now img raws recs0 used0 = .ok (recs, used))
    (rec : PyDict) (hmem : rec ∈ recs) :
    rec ∈ recs0 ∨ ∃ raw ∈ raws, ∃ u u2,
      normalize_instance interesting now img u raw = .ok (rec, u2) := by
  induction raws generalizing recs0 used0 with
  | nil =>
    unfold normalize_all at hok
    simp only [Except.ok.injEq, Prod.mk.injEq] at hok
    left
    rw [hok.1]
    exact hmem
  | cons raw rest ih =>
    unfold normalize_all at hok
    cases hn : normalize_instance interesting now img used0 raw with
    | error e => rw [hn] at hok; exact Except.noConfusion hok
    | ok p =>
      obtain ⟨r1, u1⟩ := p
      rw [hn] at hok
      rcases ih (recs0 ++ [r1]) u1 hok with hmem0 | ⟨raw', hraw', u', u2', hn'⟩
      · rcases List.mem_append.mp hmem0 with h | h
        · exact Or.inl h
        · right
          refine ⟨raw, List.mem_cons_self _ _, used0, u1, ?_⟩
          rw [hn, List.mem_singleton.mp h]
      · exact Or.inr ⟨raw', List.mem_cons_of_mem _ hraw', u', u2', hn'⟩

/-- The price merge only writes the three price fields, so every other field
of every merged record keeps its value. -/
theorem merge_price_map_preserves (insts : List PyDict)
    (pm : List (String × PriceInfo)) (insts2 : List PyDict) (k : String)
    (hk1 : k ≠ "pricePerUnit (*)") (hk2 : k ≠ "unit") (hk3 : k ≠ "instanceFamily")
    (hm : merge_price_map insts pm = .ok insts2) :
    ∀ rec2 ∈ insts2, ∃ rec ∈ insts, alookup rec2 k = alookup rec k := by
  induction insts generalizing insts2 with
  | nil =>
    unfold merge_price_map at hm
    simp only [Except.ok.injEq] at hm
    rw [← hm]
    intro rec2 h
    exact absurd h (List.not_mem_nil rec2)
  | cons inst rest ih =>
    unfold merge_price_map at hm
    cases hit : alookup inst "InstanceType" with
    | none => rw [hit] at hm; exact Except.noConfusion hm
    | some tv =>
      rw [hit] at hm
      cases hrest : merge_price_map rest pm with
      | error e =>
        rw [hrest] at hm
        exact Except.noConfusion hm
      | ok rest2 =>
        rw [hrest] at hm
        simp only [Except.ok.injEq] at hm
        intro rec2 hmem
        rw [← hm] at hmem
        rcases List.mem_cons.mp hmem with h | h
        · refine ⟨inst, List.mem_cons_self _ _, ?_⟩
          rw [h]
          cases hinfo : (match tv with
              | PyVal.str t => alookup pm t
              | _ => Option.none) with
          | none => simp only [hinfo]
          | some i =>
            simp only [hinfo]
            rw [alookup_ainsert_ne _ _ _ _ hk3, alookup_ainsert_ne _ _ _ _ hk2,
              alookup_ainsert_ne _ _ _ _ hk1]
        · obtain ⟨rec, hr, he⟩ := ih rest2 hrest rec2 h
          exact ⟨rec, List.mem_cons_of_mem _ hr, he⟩

/-- **C8 (amended).** For every record produced by a directory fetch from raw
instances whose provider state is not `running` and whose tags and placement
entries do not collide with the `Uptime` attribute, the derived uptime equals
zero (rendered `0h 0m`).  The collision proviso is forced by the counterexample
`get_current_instances_uptime_tag_clobber`: tag flattening runs after the
uptime computation and overwrites same-named fields. -/
theorem uptime_zero_of_not_running (env : FetchEnv) (ip : Bool) (region r : String)
    (insts : List PyDict) (used : List PyVal)
    (hraws : ∀ raw ∈ env.reservations.foldl (fun acc res => acc ++ res) [],
      stateNotRunning raw = true ∧ tagsAvoid raw "Uptime" = true ∧
      placementAvoid raw "Uptime" = true)
    (hok : get_current_instances env STANDARD_ATTRIBUTES ip region
      = .ok (insts, used, r)) :
    ∀ rec ∈ insts, alookup rec "Uptime" = some (PyVal.str "0h 0m") := by
  intro rec hrec
  have hITmem : "InstanceType" ∈ STANDARD_ATTRIBUTES := by decide
  cases hna : normalize_all STANDARD_ATTRIBUTES env.now env.imageName
      (env.reservations.foldl (fun acc res => acc ++ res) []) [] [] with
  | error e =>
    have hg : get_current_instances env STANDARD_ATTRIBUTES ip region = .error e := by
      unfold get_current_instances
      simp [hna, hITmem]
    rw [hg] at hok
    exact Except.noConfusion hok
  | ok p =>
    obtain ⟨insts0, used0⟩ := p
    have hrec0 : ∀ rec' ∈ insts0, alookup rec' "Uptime" = some (PyVal.str "0h 0m") := by
      intro rec' h'
      rcases normalize_all_mem _ _ _ _ _ _ _ _ hna rec' h' with h0 | ⟨raw, hraw, u', u2', hn⟩
      · exact absurd h0 (List.not_mem_nil _)
      · obtain ⟨ha, hb, hc⟩ := hraws raw hraw
        exact uptime_of_normalize env.now env.imageName u' raw rec' u2' ha hb hc hn
    cases ip with
    | false =>
      have hg : get_current_instances env STANDARD_ATTRIBUTES false region
          = .ok (insts0, used0, region) := by
        unfold get_current_instances
        simp [hna, hITmem]
      rw [hg] at hok
      simp only [Except.ok.injEq, Prod.mk.injEq] at hok
      obtain ⟨hi, -, -⟩ := hok
      exact hrec0 rec (by rw [hi]; exact hrec)
    | true =>
      cases hlp : load_prices env.getProducts used0 region with
      | error ep =>
        obtain ⟨e, qs⟩ := ep
        have hg : get_current_instances env STANDARD_ATTRIBUTES true region
            = .error e := by
          unfold get_current_instances
          simp [hna, hlp, hITmem]
        rw [hg] at hok
        exact Except.noConfusion hok
      | ok pq =>
        obtain ⟨pm, qs⟩ := pq
        cases hmg : merge_price_map insts0 pm with
        | error e =>
          have hg : get_current_instances env STANDARD_ATTRIBUTES true region
              = .error e := by
            unfold get_current_instances
            simp [hna, hlp, hmg, hITmem]
          rw [hg] at hok
          exact Except.noConfusion hok
        | ok insts2 =>
          have hg : get_current_instances env STANDARD_ATTRIBUTES true region
              = .ok (insts2, used0, region) := by
            unfold get_current_instances
            simp [hna, hlp, hmg, hITmem]
          rw [hg] at hok
          simp only [Except.ok.injEq, Prod.mk.injEq] at hok
          obtain ⟨hi, -, -⟩ := hok
          obtain ⟨rec', hr', he⟩ := merge_price_map_preserves insts0 pm insts2 "Uptime"
            (by decide) (by decide) (by decide) hmg rec (by rw [hi]; exact hrec)
          rw [he]
          exact hrec0 rec' hr'

/-- **C8 counterexample.** A stopped instance carrying a tag whose key is
`Uptime` yields a fetched record whose state is `stopped` (not running) but
whose uptime field is the tag value `999h 9m`, not zero: tag flattening runs
after the uptime computation and overwrites the derived field. -/
theorem get_current_instances_uptime_tag_clobber :
    Except.map (fun r => r.1.map (fun rec => (alookup rec "State", alookup rec "Uptime")))
      (get_current_instances
        ⟨[[[("InstanceId", PyVal.str "i-8"), ("InstanceType", PyVal.str "t2.micro"),
            ("KeyName", PyVal.str "demo"), ("State", PyVal.stateObj "stopped"),
            ("Tags", PyVal.tags [⟨"Uptime", "999h 9m"⟩]),
            ("Placement", PyVal.strDict [("AvailabilityZone", "us-east-1a")])]]],
          fun _ => [], 0, fun _ => ""⟩
        STANDARD_ATTRIBUTES false "us-east-1")
      = .ok [(some (PyVal.str "stopped"), some (PyVal.str "999h 9m"))] := by rfl

/-- Witness for the amended C8 theorem at a concrete stopped instance. -/
theorem uptime_zero_of_not_running_witness :
    alookup [("InstanceId", PyVal.str "i-9"), ("InstanceType", PyVal.str "t3.nano"),
      ("KeyName", PyVal.str "demo"), ("State", PyVal.str "stopped"),
      ("Name", PyVal.str ""), ("PublicIpAddress", PyVal.none),
      ("Uptime", PyVal.str "0h 0m")] "Uptime" = some (PyVal.str "0h 0m") :=
  uptime_zero_of_not_running
    ⟨[[[("InstanceId", PyVal.str "i-9"), ("InstanceType", PyVal.str "t3.nano"),
        ("KeyName", PyVal.str "demo"), ("State", PyVal.stateObj "stopped"),
        ("Placement", PyVal.strDict [("AvailabilityZone", "eu-central-1a")])]]],
      fun _ => [], 0, fun _ => ""⟩
    false "eu-central-1" "eu-central-1"
    [[("InstanceId", PyVal.str "i-9"), ("InstanceType", PyVal.str "t3.nano"),
      ("KeyName", PyVal.str "demo"), ("State", PyVal.str "stopped"),
      ("Name", PyVal.str ""), ("PublicIpAddress", PyVal.none),
      ("Uptime", PyVal.str "0h 0m")]]
    [PyVal.str "t3.nano"]
    (by
      intro raw h
      simp only [List.foldl, List.nil_append, List.mem_singleton] at h
      subst h
      exact ⟨rfl, rfl, rfl⟩)
    (by rfl)
    _ (List.mem_singleton.mpr rfl)

/-- **C7.** The code sets `name` to the empty string only when the raw
instance has no `Tags` field at all (the `KeyError` branch); an instance that
carries tags but no `Name` tag keeps the `None` filler instead of the empty
string the specification requires.  This evaluation exhibits the failing
input: a fetch of a tagged instance without a `Name` tag succeeds and yields
`name = None`. -/
theorem get_current_instances_tags_without_name :
    Except.map (fun r => r.1.map (fun rec => alookup rec "Name"))
      (get_current_instances
        ⟨[[[("InstanceId", PyVal.str "i-7"), ("InstanceType", PyVal.str "t2.micro"),
            ("KeyName", PyVal.str "demo"), ("State", PyVal.stateObj "stopped"),
            ("Tags", PyVal.tags [⟨"Env", "prod"⟩]),
            ("Placement", PyVal.strDict [("AvailabilityZone", "us-east-1a")])]]],
          fun _ => [], 0, fun _ => ""⟩
        STANDARD_ATTRIBUTES false "us-east-1")
      = .ok [some PyVal.none] := by rfl

/-! ## Action executor (`start_instance`, `stop_instance`, `change_type`) -/

/-- The EC2 API calls the tool can issue; the theorems reason about the traces
of these calls. -/
inductive Ec2Call where
  | startInstances (ids : List String) (dryRun : Bool)
  | stopInstances (ids : List String) (dryRun : Bool)
  | waitInstanceRunning (ids : List String)
  | waitInstanceStopped (ids : List String)
  | describeInstances (ids : List String)
  | modifyInstanceAttribute (id attr value : String)
  | createTags (resources : List String) (tags : List AwsTag)
deriving DecidableEq, Repr

/-- The calls that mutate remote provider state (a dry run is counted as a
provider mutation request for the purposes of the idempotence claims). -/
def isMutation : Ec2Call → Bool
  | .startInstances _ _ => true
  | .stopInstances _ _ => true
  | .modifyInstanceAttribute _ _ _ => true
  | .createTags _ _ => true
  | _ => false

/-- The provider-side outcomes `start_instance` can observe: the `ClientError`
raised by the dry run (if any), the outcome of the real start call, of the
running waiter, and of the final describe call. -/
structure StartEnv where
  dryRunErr : Option String
  realStart : Except String String
  waitRun : Except String Unit
  describeInfo : Except String PyDict

/-- The tail of `start_instance` after a successful dry-run check (lines
204-216): real start, waiter, describe, with `ClientError` caught at line
213.  Returns the response and the trace of EC2 calls. -/
def start_instance_real (env : StartEnv) (iid : String) (calls0 : List Ec2Call) :
    Except Err (Option String × List Ec2Call) :=
  match env.realStart with
  | .error _e => .ok (Option.none, calls0 ++ [.startInstances [iid] false])
  | .ok resp =>
    match env.waitRun with
    | .error _e =>
        .ok (some resp, calls0 ++ [.startInstances [iid] false, .waitInstanceRunning [iid]])
    | .ok _ =>
        .ok (some resp, calls0 ++ [.startInstances [iid] false, .waitInstanceRunning [iid],
          .describeInstances [iid]])

/-- `start_instance` (lines 192-216).  When the state is already `running` or
`pending` the function only prints a message and returns `None` without
creating a client or issuing any call; otherwise it performs the dry-run
permission check (re-raising a `ClientError` that does not mention
`DryRunOperation`) and then the real start sequence. -/
def start_instance (env : StartEnv) (instance_ : PyDict) (region_name : String) :
    Except Err (Option String × List Ec2Call) :=
  match alookup instance_ "State" with
  | Option.none => .error (.keyError "State")
  | some st =>
    if st == PyVal.str "running" || st == PyVal.str "pending" then
      .ok (Option.none, [])
    else
      match alookup instance_ "InstanceId" with
      | Option.none => .error (.keyError "InstanceId")
      | some (.str iid) =>
        let calls0 := [Ec2Call.startInstances [iid] true]
        match env.dryRunErr with
        | some emsg =>
          if strContains emsg "DryRunOperation" then
            start_instance_real env iid calls0
          else .error (.clientError emsg)
        | Option.none => start_instance_real env iid calls0
      | some _ => .error .typeError

/-- The provider-side outcomes `stop_instance` can observe. -/
structure StopEnv where
  dryRunErr : Option String
  realStop : Except String String
  waitStop : Except String Unit

/-- The printed outcome of `stop_instance`: the operator declined (the
function prints `Canceling` and returns), the instance was already stopped or
stopping, or the stop sequence ran. -/
inductive StopOutcome where
  | canceled
  | alreadyStopped
  | finished (resp : Option String)
deriving DecidableEq, Repr

/-- The tail of `stop_instance` after a successful dry-run check (lines
239-247). -/
def stop_instance_real (env : StopEnv) (iid : String) (calls0 : List Ec2Call) :
    Except Err (StopOutcome × List Ec2Call) :=
  match env.realStop with
  | .error _e => .ok (.finished Option.none, calls0 ++ [.stopInstances [iid] false])
  | .ok resp =>
    match env.waitStop with
    | .error _e =>
        .ok (.finished (some resp),
          calls0 ++ [.stopInstances [iid] false, .waitInstanceStopped [iid]])
    | .ok _ =>
        .ok (.finished (some resp),
          calls0 ++ [.stopInstances [iid] false, .waitInstanceStopped [iid]])

/-- `stop_instance` (lines 218-247).  The confirmation prompt comes first: its
message concatenates the instance name (a non-string raises `TypeError`), and
a declined confirmation returns before any client is created or any call is
issued.  Then the already-stopped check, then the dry-run-and-stop sequence. -/
def stop_instance (env : StopEnv) (confirm : Bool) (instance_ : PyDict)
    (region_name : String) : Except Err (StopOutcome × List Ec2Call) :=
  match alookup instance_ "Name" with
  | Option.none => .error (.keyError "Name")
  | some (.str _name) =>
    if !confirm then .ok (.canceled, [])
    else
      match alookup instance_ "State" with
      | Option.none => .error (.keyError "State")
      | some st =>
        if st == PyVal.str "stopped" || st == PyVal.str "stopping" then
          .ok (.alreadyStopped, [])
        else
          match alookup instance_ "InstanceId" with
          | Option.none => .error (.keyError "InstanceId")
          | some (.str iid) =>
            let calls0 := [Ec2Call.stopInstances [iid] true]
            match env.dryRunErr with
            | some emsg =>
              if strContains emsg "DryRunOperation" then
                stop_instance_real env iid calls0
              else .error (.clientError emsg)
            | Option.none => stop_instance_real env iid calls0
          | some _ => .error .typeError
  | some _ => .error .typeError

/-- `change_type` (lines 345-356): the assert on the state comes first (the
specification names this failure `InvalidStateError`); then the prompt is
built (concatenating the current instance type) and the modify call is
issued with the chosen type. -/
def change_type (instance_ : PyDict) (region_name : String)
    (available_instances : List (String × String)) (choose : List String → String) :
    Except Err Ec2Call :=
  match alookup instance_ "State" with
  | Option.none => .error (.keyError "State")
  | some st =>
    if st != PyVal.str "stopped" then .error .invalidStateError
    else
      match alookup instance_ "InstanceType" with
      | Option.none => .error (.keyError "InstanceType")
      | some (.str _curType) =>
        let choices := available_instances.map (fun kv => kv.1 ++ " :: " ++ kv.2)
        let chosen_type := pySplitHead (choose choices) " :: "
        match alookup instance_ "InstanceId" with
        | Option.none => .error (.keyError "InstanceId")
        | some (.str iid) => .ok (.modifyInstanceAttribute iid "instanceType" chosen_type)
        | some _ => .error .typeError
      | some _ => .error .typeError

/-- The option menu built by the session loop for a chosen instance (lines
544-561).  `Details` is always offered first; a running instance with a
public address gets the full menu; a terminated (or `terminating`) instance
gets the placeholder entry only; every other state gets start, rename and
change-type.  The address is only read when the state is `running`
(short-circuit of the `and` at line 549). -/
def session_options (instance_ : PyDict) : Except Err (List String) :=
  match alookup instance_ "Name" with
  | Option.none => .error (.keyError "Name")
  | some instance_name =>
    let deployName := "Deploy data to \"" ++ pyStr instance_name ++ "\""
    let fetchName := "Fetch data from \"" ++ pyStr instance_name ++ "\""
    match alookup instance_ "State" with
    | Option.none => .error (.keyError "State")
    | some st =>
      if st == PyVal.str "running" then
        match alookup instance_ "PublicIpAddress" with
        | Option.none => .error (.keyError "PublicIpAddress")
        | some addr =>
          if addr != PyVal.none then
            .ok ["Details", "Open shell (SSH)", "Jupyter", deployName, fetchName,
              "Change name", "Stop"]
          else
            .ok ["Details", "Start", "Change name", "Change type"]
      else if st == PyVal.str "terminated" || st == PyVal.str "terminating" then
        .ok ["Nothing to do here."]
      else
        .ok ["Details", "Start", "Change name", "Change type"]

/-! ## Claims C1-C4 -/

/-- **C2.** For an instance record with valid fields, `change_type` fails with
the invalid-state error exactly when the state differs from `stopped` (and for
no other reason), and for a stopped instance it issues the provider
modify-instance-type call for the chosen type. -/
theorem change_type_state_guard (instance_ : PyDict) (region : String)
    (avail : List (String × String)) (choose : List String → String)
    (s ct iid : String)
    (hs : alookup instance_ "State" = some (.str s))
    (ht : alookup instance_ "InstanceType" = some (.str ct))
    (hi : alookup instance_ "InstanceId" = some (.str iid)) :
    (s ≠ "stopped" → change_type instance_ region avail choose
      = .error .invalidStateError) ∧
    (s = "stopped" → change_type instance_ region avail choose
      = .ok (.modifyInstanceAttribute iid "instanceType"
          (pySplitHead (choose (avail.map (fun kv => kv.1 ++ " :: " ++ kv.2)))
            " :: "))) := by
  constructor
  · intro hne
    have hb : (PyVal.str s != PyVal.str "stopped") = true := by
      simp [bne, pyval_beq_def, hne]
    simp only [change_type, hs]
    rw [if_pos hb]
  · intro he
    subst he
    simp only [change_type, hs, ht, hi]
    rw [if_neg (by decide : ¬ (PyVal.str "stopped" != PyVal.str "stopped") = true)]

/-- Witness for C2: `change_type` on a running instance with valid fields
fails with the invalid-state error. -/
theorem change_type_state_guard_witness :
    change_type [("State", PyVal.str "running"), ("InstanceType", PyVal.str "t2.micro"),
      ("InstanceId", PyVal.str "i-1")] "us-east-1" [("t3.nano", "small")]
      (fun _ => "t3.nano :: small") = .error .invalidStateError :=
  (change_type_state_guard
    [("State", PyVal.str "running"), ("InstanceType", PyVal.str "t2.micro"),
     ("InstanceId", PyVal.str "i-1")] "us-east-1" [("t3.nano", "small")]
    (fun _ => "t3.nano :: small") "running" "t2.micro" "i-1" rfl rfl rfl).1
    (by decide)

/-- **C3.** On a record whose state is `running` or `pending`, `start_instance`
returns the informational no-op (`None`) with an empty call trace: no client
is created and no provider call of any kind, dry-run or real, is issued.
Since this holds for every provider environment, a second `start_instance` on
the same still-running record again issues no call, which is the idempotence
scenario of the claim. -/
theorem start_instance_noop_when_running (env : StartEnv) (instance_ : PyDict)
    (region : String) (st : PyVal)
    (hst : alookup instance_ "State" = some st)
    (h : st = PyVal.str "running" ∨ st = PyVal.str "pending") :
    start_instance env instance_ region = .ok (Option.none, []) := by
  rcases h with h | h <;> subst h <;> simp only [start_instance, hst] <;>
    rw [if_pos (by decide)]

/-- Witness for C3 at a concrete running instance. -/
theorem start_instance_noop_when_running_witness :
    start_instance ⟨Option.none, .ok "resp", .ok (), .ok []⟩
      [("State", PyVal.str "running"), ("InstanceId", PyVal.str "i-2")]
      "us-east-1" = .ok (Option.none, []) :=
  start_instance_noop_when_running ⟨Option.none, .ok "resp", .ok (), .ok []⟩
    [("State", PyVal.str "running"), ("InstanceId", PyVal.str "i-2")]
    "us-east-1" (PyVal.str "running") rfl (Or.inl rfl)

/-- **C4.** The stop operation consumes the operator confirmation before any
client is created; when the operator declines, the result is the explicit
canceled outcome with an empty call trace — no dry-run and no real stop call,
and no error. -/
theorem stop_instance_decline_no_call (env : StopEnv) (instance_ : PyDict)
    (region : String) (nm : String)
    (hname : alookup instance_ "Name" = some (.str nm)) :
    stop_instance env false instance_ region = .ok (.canceled, []) := by
  simp only [stop_instance, hname]
  rfl

/-- Witness for C4 at a concrete running instance. -/
theorem stop_instance_decline_no_call_witness :
    stop_instance ⟨Option.none, .ok "resp", .ok ()⟩ false
      [("Name", PyVal.str "worker"), ("State", PyVal.str "running"),
       ("InstanceId", PyVal.str "i-2")] "us-east-1" = .ok (.canceled, []) :=
  stop_instance_decline_no_call ⟨Option.none, .ok "resp", .ok ()⟩
    [("Name", PyVal.str "worker"), ("State", PyVal.str "running"),
     ("InstanceId", PyVal.str "i-2")] "us-east-1" "worker" rfl

/-- **C1 counterexample.** For an instance in state `pending` the session loop
offers `Start`, `Change name` and `Change type` besides `Details`, while the
valid-actions table of the specification allows details only for the
transitional states. -/
theorem session_options_pending_offers_start :
    session_options [("Name", PyVal.str "box"), ("State", PyVal.str "pending"),
      ("PublicIpAddress", PyVal.none)]
      = .ok ["Details", "Start", "Change name", "Change type"] := by rfl

/-- **C1 (amended).** The menu the session loop actually builds: a running
instance with a non-`None` public address gets details, shell, tunnel,
deploy, fetch, rename and stop; a `terminated` (or `terminating`) instance
gets no action; every other record — running without an address, `pending`,
`stopping`, `stopped`, `shutting-down`, or any unknown state value — gets
details, start, rename and change-type.  No state is surfaced as a warning. -/
theorem session_options_table (instance_ : PyDict) (nm : PyVal) (s : String)
    (addr : PyVal)
    (hn : alookup instance_ "Name" = some nm)
    (hs : alookup instance_ "State" = some (.str s))
    (ha : alookup instance_ "PublicIpAddress" = some addr) :
    session_options instance_ = .ok (
      if s = "running" ∧ addr ≠ PyVal.none then
        ["Details", "Open shell (SSH)", "Jupyter",
         "Deploy data to \"" ++ pyStr nm ++ "\"",
         "Fetch data from \"" ++ pyStr nm ++ "\"",
         "Change name", "Stop"]
      else if s = "terminated" ∨ s = "terminating" then
        ["Nothing to do here."]
      else
        ["Details", "Start", "Change name", "Change type"]) := by
  simp only [session_options, hn, hs, ha]
  by_cases hr : s = "running"
  · subst hr
    rw [if_pos (by decide : (PyVal.str "running" == PyVal.str "running") = true)]
    by_cases hA : addr = PyVal.none
    · subst hA
      rw [if_neg (by decide : ¬ (PyVal.none != PyVal.none) = true),
        if_neg (by
          intro hc
          exact hc.2 rfl),
        if_neg (by decide : ¬ ("running" = "terminated" ∨ "running" = "terminating"))]
    · have hA' : (addr != PyVal.none) = true := by
        simp [bne, pyval_beq_def, hA]
      rw [if_pos hA', if_pos ⟨rfl, hA⟩]
  · rw [if_neg (by simp [pyval_beq_def, hr])]
    by_cases ht : s = "terminated"
    · subst ht
      rw [if_pos (by decide :
          ((PyVal.str "terminated" == PyVal.str "terminated")
            || (PyVal.str "terminated" == PyVal.str "terminating")) = true),
        if_neg (by
          intro hc
          exact absurd hc.1 (by decide)),
        if_pos (Or.inl rfl)]
    · by_cases ht2 : s = "terminating"
      · subst ht2
        rw [if_pos (by decide :
            ((PyVal.str "terminating" == PyVal.str "terminated")
              || (PyVal.str "terminating" == PyVal.str "terminating")) = true),
          if_neg (by
            intro hc
            exact absurd hc.1 (by decide)),
          if_pos (Or.inr rfl)]
      · rw [if_neg (by simp [pyval_beq_def, ht, ht2]),
          if_neg (by
            intro hc
            exact hr hc.1),
          if_neg (by
            intro hc
            rcases hc with hc | hc
            · exact ht hc
            · exact ht2 hc)]

/-- Witness for the amended C1 theorem at a concrete stopped instance:
start, rename and change-type are offered besides details. -/
theorem session_options_table_witness :
    session_options [("Name", PyVal.str "box"), ("State", PyVal.str "stopped"),
      ("PublicIpAddress", PyVal.none)]
      = .ok ["Details", "Start", "Change name", "Change type"] :=
  (session_options_table
    [("Name", PyVal.str "box"), ("State", PyVal.str "stopped"),
     ("PublicIpAddress", PyVal.none)]
    (PyVal.str "box") "stopped" PyVal.none rfl rfl rfl).trans
    (congrArg Except.ok (by decide))

/-! ## Session loop (`__main__`, lines 491-585) -/

/-- `connect_instance` (lines 249-256): raises `ValueError` when the key file
is absent; otherwise it blocks on the interactive ssh session (whose command
line concatenates the username and the public address). -/
def connect_instance (keyExists : String → Bool) (instance_ : PyDict) :
    Except Err Unit :=
  match alookup instance_ "KeyName" with
  | Option.none => .error (.keyError "KeyName")
  | some (.str key_name) =>
    if keyExists key_name then
      match alookup instance_ "PublicIpAddress" with
      | some (.str _addr) => .ok ()
      | some _ => .error .typeError
      | Option.none => .error (.keyError "PublicIpAddress")
    else
      .error (.valueError ("Key" ++ key_name ++ ".pem is not available in my keys folder."))
  | some _ => .error .typeError

/-- `kill_jupyters` (lines 309-312): reads the key name and does nothing else
(the body is marked UNFINISHED in the source). -/
def kill_jupyters (instance_ : PyDict) : Except Err Unit :=
  match alookup instance_ "KeyName" with
  | Option.none => .error (.keyError "KeyName")
  | some _ => .ok ()

/-- `change_name` (lines 358-379): both prompt messages concatenate the
current name (a non-string raises `TypeError`); a declined confirmation is a
no-op, otherwise the `create_tags` call is issued with the chosen name. -/
def change_name (chosen_name : String) (confirm : Bool) (instance_ : PyDict) :
    Except Err (List Ec2Call) :=
  match alookup instance_ "Name" with
  | Option.none => .error (.keyError "Name")
  | some (.str _old) =>
    if !confirm then .ok []
    else
      match alookup instance_ "InstanceId" with
      | Option.none => .error (.keyError "InstanceId")
      | some (.str iid) => .ok [.createTags [iid] [⟨"Name", chosen_name⟩]]
      | some _ => .error .typeError
  | some _ => .error .typeError

/-- Stable insertion of an element into a list sorted by `le`. -/
def insertSortedBy {α : Type} (le : α → α → Bool) (x : α) : List α → List α
  | [] => [x]
  | y :: ys => if le y x then y :: insertSortedBy le x ys else x :: y :: ys

/-- Stable sort by `le` (Python `sorted` with a key function). -/
def sortBy {α : Type} (le : α → α → Bool) (l : List α) : List α :=
  l.foldl (fun acc x => insertSortedBy le x acc) []

/-- `ask_instance` (lines 444-454): sort the records by state, render one
choice line per record (concatenating id, state and name — a `None` value
raises `TypeError`), append the two fixed entries, prompt, and split the
answer at the first ` :: `. -/
def ask_instance (choose : List String → String) (instances : List PyDict) :
    Except Err String := do
  let triples ← instances.mapM (fun i => do
    let iid ← dgetStr i "InstanceId"
    let st ← dgetStr i "State"
    let nm ← dgetStr i "Name"
    pure (iid, st, nm))
  let sorted_list := sortBy (fun a b => a.2.1 ≤ b.2.1) triples
  let choices := sorted_list.map (fun t => t.1 ++ " :: (" ++ t.2.1 ++ ", " ++ t.2.2 ++ ")")
      ++ ["Change region", "Change username (SSH)"]
  pure (pySplitHead (choose choices) " :: ")

/-- `change_region` (lines 456-472): every known region must have a readable
name (otherwise the `KeyError` of line 463); the chosen entry is split at
`  -  `. -/
def change_region (choose : List String → String) (known_regions : List String)
    (current_region_name : String) : Except Err String := do
  let entries ← known_regions.mapM (fun r =>
    match lookupRegion r with
    | Option.none => Except.error (Err.unknownRegionError r)
    | some loc => Except.ok (r ++ "  -  " ++ loc))
  pure (pySplitHead (choose entries) "  -  ")

/-- `change_remote_username` (lines 296-306). -/
def change_remote_username (choose : List String → String) : String :=
  pySplitHead (choose (USERNAME_TO_AMI.map (fun kv => kv.1 ++ "  -  " ++ kv.2)))
    "  -  "

/-- The region check `display_instances` performs (lines 314-343) before
rendering; the table rendering itself is elided. -/
def display_instances_check (instances : List PyDict) (region_name : String) :
    Except Err Unit :=
  match lookupRegion region_name with
  | Option.none => .error (.unknownRegionError region_name)
  | some _ => .ok ()

/-- The mutable global configuration the loop reads (`GLOBAL_CONFIG`). -/
structure LobotConfig where
  aws_region : String
  aws_username : String
  load_prices : Bool
deriving DecidableEq, Repr

/-- Everything one loop iteration consumes from the outside world: the fetch
data, the prompt answers, the provider outcomes for the modelled actions, and
opaque outcomes for the ssh/scp-glue actions (`start_jupyter`, `deploy`,
`fetch`, `detailed_info`), which shell out to external programs. -/
structure SessionEnv where
  fetch : FetchEnv
  chooseInstance : List String → String
  chooseAction : List String → String
  chooseType : List String → String
  chooseRegion : List String → String
  chooseUsername : List String → String
  knownRegions : List String
  confirmStop : Bool
  confirmRename : Bool
  chosenName : String
  startEnv : StartEnv
  stopEnv : StopEnv
  keyExists : String → Bool
  recommended : List (String × String)
  jupyterOutcome : Except Err Unit
  deployOutcome : Except Err Unit
  fetchOutcome : Except Err Unit
  detailsOutcome : Except Err Unit

/-- The action dispatch of the session loop (lines 563-583): a sequence of
independent equality checks against the chosen menu entry; whatever the
selected action raises propagates — there is no try/except here. -/
def dispatch_action (env : SessionEnv) (action deployName fetchName : String)
    (instance_ : PyDict) (region : String) : Except Err Unit := do
  if action == "Start" then
    let _ ← start_instance env.startEnv instance_ region
  if action == "Stop" then
    let _ ← stop_instance env.stopEnv env.confirmStop instance_ region
  if action == "Open shell (SSH)" then
    connect_instance env.keyExists instance_
  if action == "Jupyter" then
    env.jupyterOutcome
  if action == "Kill Jupyters" then
    kill_jupyters instance_
  if action == "Change type" then
    let _ ← change_type instance_ region env.recommended env.chooseType
  if action == "Change name" then
    let _ ← change_name env.chosenName env.confirmRename instance_
  if action == deployName then
    env.deployOutcome
  if action == fetchName then
    env.fetchOutcome
  if action == "Details" then
    env.detailsOutcome
  pure ()

/-- One iteration of the session loop (lines 521-585): read the region from
the configuration, fetch and display the directory, prompt for an instance
(or a region/username change), locate the chosen record, build the action
menu, prompt for an action and dispatch it.  Every error any of these steps
raises propagates out of the iteration. -/
def session_iteration (env : SessionEnv) (cfg : LobotConfig) :
    Except Err LobotConfig := do
  let region := cfg.aws_region
  let (instances, _used, region) ←
    get_current_instances env.fetch STANDARD_ATTRIBUTES cfg.load_prices region
  let _ ← display_instances_check instances region
  let chosen ← ask_instance env.chooseInstance instances
  if chosen == "Change region" then
    let r ← change_region env.chooseRegion env.knownRegions region
    pure { cfg with aws_region := r }
  else if chosen == "Change username (SSH)" then
    pure { cfg with aws_username := change_remote_username env.chooseUsername }
  else
    -- lines 540-542: locate the record; when no id matches, `chosen_instance`
    -- stays a plain string and line 546 raises TypeError
    let found ← instances.foldlM (fun (acc : Option PyDict) i => do
      let v ← dget i "InstanceId"
      pure (if v == PyVal.str chosen then some i else acc)) (Option.none : Option PyDict)
    match found with
    | Option.none => throw .typeError
    | some chosen_instance => do
      let instance_name ← dget chosen_instance "Name"
      let deployName := "Deploy data to \"" ++ pyStr instance_name ++ "\""
      let fetchName := "Fetch data from \"" ++ pyStr instance_name ++ "\""
      let options ← session_options chosen_instance
      let chosen_action := env.chooseAction options
      let _ ← dispatch_action env chosen_action deployName fetchName chosen_instance region
      pure cfg

/-- The `while True` loop, indexed by fuel; the environment of iteration `i`
is `envs i`.  An error raised by an iteration terminates the loop with that
error. -/
def session_loop (envs : Nat → SessionEnv) : Nat → LobotConfig →
    Except Err LobotConfig
  | 0, cfg => .ok cfg
  | fuel + 1, cfg =>
    match session_iteration (envs 0) cfg with
    | .error e => .error e
    | .ok cfg2 => session_loop (fun i => envs (i + 1)) fuel cfg2

/-- A session environment in which the fetch returns one running instance
without a public address and the operator picks it and chooses `Change type`
(an entry the menu offers for that state); `change_type` then raises because
the state is not `stopped`. -/
def changeTypeCrashEnv : SessionEnv :=
  { fetch := ⟨[[[("InstanceId", PyVal.str "i-1"), ("InstanceType", PyVal.str "t2.micro"),
       ("KeyName", PyVal.str "demo"), ("State", PyVal.stateObj "running"),
       ("LaunchTime", PyVal.time 0),
       ("Placement", PyVal.strDict [("AvailabilityZone", "us-east-1a")])]]],
      fun _ => [], 0, fun _ => ""⟩
    chooseInstance := fun _ => "i-1 :: (running, )"
    chooseAction := fun _ => "Change type"
    chooseType := fun _ => "t3.nano :: small"
    chooseRegion := fun _ => ""
    chooseUsername := fun _ => ""
    knownRegions := []
    confirmStop := false
    confirmRename := false
    chosenName := ""
    startEnv := ⟨Option.none, .ok "", .ok (), .ok []⟩
    stopEnv := ⟨Option.none, .ok "", .ok ()⟩
    keyExists := fun _ => false
    recommended := [("t3.nano", "small")]
    jupyterOutcome := .ok ()
    deployOutcome := .ok ()
    fetchOutcome := .ok ()
    detailsOutcome := .ok () }

/-- **C5 counterexample.** A single failing action terminates the whole
session loop: with three reloads of fuel available, the operator choosing
`Change type` on a running instance (an entry the menu offers when the
address is not yet assigned) makes the assert in `change_type` raise, the
error crosses the dispatch boundary uncaught, and the loop ends with that
error instead of continuing to the next refresh. -/
theorem session_loop_change_type_crash :
    session_loop (fun _ => changeTypeCrashEnv) 3 ⟨"us-east-1", "ubuntu", false⟩
      = .error .invalidStateError := by rfl

/-- **C5 (amended).** The session loop has no try/except at the dispatch
boundary: whenever an iteration (fetch, prompts, or the dispatched action)
raises an error, the loop terminates immediately with that error, however
much fuel remains. -/
theorem session_loop_stops_on_error (envs : Nat → SessionEnv) (fuel : Nat)
    (cfg : LobotConfig) (e : Err)
    (h : session_iteration (envs 0) cfg = .error e) :
    session_loop envs (fuel + 1) cfg = .error e := by
  unfold session_loop
  rw [h]

/-- Witness for the amended C5 theorem: the change-type crash ends the loop
with five reloads of fuel remaining. -/
theorem session_loop_stops_on_error_witness :
    session_loop (fun _ => changeTypeCrashEnv) 5 ⟨"us-east-1", "ubuntu", false⟩
      = .error .invalidStateError :=
  session_loop_stops_on_error (fun _ => changeTypeCrashEnv) 4
    ⟨"us-east-1", "ubuntu", false⟩ .invalidStateError (by rfl)
